import Mathlib

/-!
Verification of the d2-mcp server adapter (src/index.ts) against its
natural-language specification.  The TypeScript handlers are shallowly
embedded as total Lean functions: asynchronous compiler calls become
environment parameters recording the eventual settlement of each promise
and whether it settles before the 30-second deadline timer; the regex
post-processing is embedded as executable scanners over `List Char`.
-/

set_option maxRecDepth 10000
set_option linter.unusedVariables false

/-- Settlement of a JavaScript promise: it either fulfills with a value or
rejects with an error message. -/
inductive Outcome (α : Type) where
  | ok (a : α)
  | err (msg : String)
deriving DecidableEq

/-- True exactly when the outcome is a fulfillment. -/
def Outcome.isOk {α : Type} : Outcome α → Bool
  | .ok _ => true
  | .err _ => false

/-- Behaviour of one asynchronous operation: its eventual outcome, and
whether it settles before a 30000 ms deadline timer started together
with it (`fast = true` means the operation wins the race). -/
structure Async (α : Type) where
  fast : Bool
  outcome : Outcome α
deriving DecidableEq

/-- Timeout error message built by `withTimeout` in index.ts. -/
def timeoutMessage (ms : Nat) (label : String) : String :=
  let secs := ms / 1000
  label ++ s!" timed out after {secs}s. " ++
    "If you used layout-engine: elk, switch to dagre (or remove the layout setting entirely) — " ++
    "ELK is extremely slow in WASM."

/-- Fate of the deadline timer created by `setTimeout` inside `withTimeout`:
whether any code path cancels it (`clearTimeout`) and whether it eventually
fires.  index.ts never calls `clearTimeout`, so the timer is never cancelled
and always fires. -/
structure TimerFate where
  cancelled : Bool
  fires : Bool
deriving DecidableEq

/-- Embedding of `withTimeout` from index.ts including the timer's fate:
`Promise.race` of the operation against a `setTimeout` rejection.  The first
settlement wins; no `clearTimeout` appears in the source, so the timer is
never cancelled and fires in every case. -/
def withTimeoutRun {α : Type} (a : Async α) (ms : Nat) (label : String) :
    Outcome α × TimerFate :=
  ((if a.fast then a.outcome else .err (timeoutMessage ms label)),
   ⟨false, true⟩)

/-- The value returned to the caller of `withTimeout`. -/
def withTimeout {α : Type} (a : Async α) (ms : Nat) (label : String) : Outcome α :=
  (withTimeoutRun a ms label).1

/-- `CHARACTER_LIMIT` from index.ts. -/
def CHARACTER_LIMIT : Nat := 200000

/-- `RENDER_TIMEOUT_MS` from index.ts. -/
def RENDER_TIMEOUT_MS : Nat := 30000

/-! ### Output post-processor: `stripFontFaces`

`stripFontFaces(svg)` is
`svg.replace(/@font-face\s*\{[^{}]*\}/g, "").replace(/\n{3,}/g, "\n\n")`.
We embed both global regex replacements as left-to-right scanners over
`List Char`, matching the JavaScript regex semantics: the font-face pattern
is a literal `@font-face`, greedy whitespace, an opening brace, greedy
non-brace characters and a closing brace (no backtracking is possible since
each greedy class excludes the character required next); the newline rule
replaces every maximal run of three or more newlines by exactly two, i.e. it
caps every maximal newline run at two. -/

/-- The character `{` (written numerically to keep it out of string literals). -/
def lbrace : Char := Char.ofNat 123

/-- The character `}`. -/
def rbrace : Char := Char.ofNat 125

/-- JavaScript `\s` character class (`WhiteSpace` plus line terminators). -/
def isJsSpace (c : Char) : Bool :=
  c = ' ' || c = '\t' || c = '\n' || c = '\r' ||
  c.val = 0xb || c.val = 0xc || c.val = 0xa0 || c.val = 0x1680 ||
  (0x2000 ≤ c.val && c.val ≤ 0x200a) ||
  c.val = 0x2028 || c.val = 0x2029 || c.val = 0x202f ||
  c.val = 0x205f || c.val = 0x3000 || c.val = 0xfeff

/-- Consume an exact literal at the front of the text, returning the rest. -/
def dropLit : List Char → List Char → Option (List Char)
  | [], rest => some rest
  | _ :: _, [] => none
  | p :: ps, c :: cs => if c = p then dropLit ps cs else none

/-- The literal `@font-face`. -/
def fontFaceLit : List Char := "@font-face".data

/-- Try to match the regex `@font-face\s*\{[^{}]*\}` at the front of the
text; on success return the text after the match. -/
def tryMatchFontFace (l : List Char) : Option (List Char) :=
  match dropLit fontFaceLit l with
  | none => none
  | some r1 =>
    match r1.dropWhile isJsSpace with
    | [] => none
    | c :: r2 =>
      if c = lbrace then
        match r2.dropWhile (fun d => !(d = lbrace || d = rbrace)) with
        | [] => none
        | d :: r3 => if d = rbrace then some r3 else none
      else none

/-- Global replacement of the font-face pattern by the empty string: scan
left to right, deleting each match and continuing after it.  The fuel is
always at least the length of the list at every call site, so the
out-of-fuel branch is unreachable; it returns the text unchanged. -/
def removeFontFacesAux : Nat → List Char → List Char
  | _, [] => []
  | 0, l => l
  | fuel + 1, c :: cs =>
    match tryMatchFontFace (c :: cs) with
    | some rest => removeFontFacesAux fuel rest
    | none => c :: removeFontFacesAux fuel cs

/-- First replacement pass of `stripFontFaces`. -/
def removeFontFaces (l : List Char) : List Char :=
  removeFontFacesAux l.length l

/-- Does the font-face pattern match anywhere in the text? -/
def hasFontFace : List Char → Bool
  | [] => false
  | c :: cs => (tryMatchFontFace (c :: cs)).isSome || hasFontFace cs

/-- Second replacement pass, `.replace(/\n{3,}/g, "\n\n")`: every maximal
run of three or more newlines becomes exactly two, which is the same as
emitting at most two newlines from every maximal run.  `k` counts the
newlines already emitted from the current run (saturating at 2). -/
def collapseGo : Nat → List Char → List Char
  | _, [] => []
  | k, c :: cs =>
    if c = '\n' then
      if k < 2 then '\n' :: collapseGo (k + 1) cs
      else collapseGo k cs
    else c :: collapseGo 0 cs

/-- Newline-collapsing pass of `stripFontFaces`. -/
def collapseNewlines (l : List Char) : List Char :=
  collapseGo 0 l

/-- `stripFontFaces` from index.ts. -/
def stripFontFaces (s : String) : String :=
  String.mk (collapseNewlines (removeFontFaces s.data))

theorem collapseGo_idem (l : List Char) : ∀ k, collapseGo k (collapseGo k l) = collapseGo k l := by
  induction l with
  | nil => intro k; rfl
  | cons c cs ih =>
    intro k
    by_cases hc : c = '\n'
    · subst hc
      by_cases hk : k < 2
      · simp [collapseGo, hk, ih (k + 1)]
      · simp [collapseGo, hk, ih k]
    · simp [collapseGo, hc, ih 0]

theorem removeFontFacesAux_of_not_hasFontFace (l : List Char) :
    ∀ fuel, hasFontFace l = false → removeFontFacesAux fuel l = l := by
  induction l with
  | nil => intro fuel _; cases fuel <;> rfl
  | cons c cs ih =>
    intro fuel h
    simp only [hasFontFace, Bool.or_eq_false_iff] at h
    obtain ⟨h1, h2⟩ := h
    cases fuel with
    | zero => rfl
    | succ fuel =>
      cases htm : tryMatchFontFace (c :: cs) with
      | none =>
        simp only [removeFontFacesAux, htm]
        exact congrArg (c :: ·) (ih fuel h2)
      | some rest => rw [htm] at h1; simp at h1

theorem stripFontFaces_idem_aux (x : String)
    (h : hasFontFace (stripFontFaces x).data = false) :
    stripFontFaces (stripFontFaces x) = stripFontFaces x := by
  unfold stripFontFaces at *
  simp only [String.data] at *
  unfold collapseNewlines at *
  rw [removeFontFaces, removeFontFacesAux_of_not_hasFontFace _ _ h, collapseGo_idem]

/-! ### Data model of the tool inputs and the compiler facade -/

/-- The two recognized layout engines (the `Layout` enum of index.ts). -/
inductive Layout where
  | dagre
  | elk
deriving DecidableEq

/-- `CompileOptions` assembled by the d2_render handler; every field is
independently optional and absent fields are simply not set. -/
structure CompileOptions where
  layout : Option Layout := none
  sketch : Option Bool := none
  themeID : Option Int := none
  darkThemeID : Option Int := none
  pad : Option Nat := none
  center : Option Bool := none
  ascii : Option Bool := none
deriving DecidableEq

/-- Validated input of the d2_render tool (RenderInputSchema). -/
structure RenderInput where
  d2_code : String
  theme_id : Option Int := none
  dark_theme_id : Option Int := none
  layout : Option Layout := none
  sketch : Option Bool := none
  pad : Option Nat := none
  center : Option Bool := none
  ascii : Option Bool := none
  skip_fonts : Option Bool := none
deriving DecidableEq

/-- Validated input of the d2_validate tool. -/
structure ValidateInput where
  d2_code : String
deriving DecidableEq

/-- Validated input of the d2_format tool. -/
structure FormatInput where
  d2_code : String
deriving DecidableEq

/-- Opaque compiled-diagram token produced by `d2.compile`. -/
abbrev Diagram := Nat

/-- Opaque render-options token carried alongside the compiled diagram. -/
abbrev RenderOpts := Nat

/-- Successful result of `d2.compile`: the diagram and its render options. -/
structure CompileSuccess where
  diagram : Diagram
  renderOptions : RenderOpts
deriving DecidableEq

/-- Behaviour of the shared D2 WASM instance, as seen by the handlers: for
every compile call (source text plus the optional options argument — `none`
when `d2.compile(code)` is called with no second argument) and for every
render call, the environment fixes the promise's settlement. -/
structure D2Env where
  compile : String → Option CompileOptions → Async CompileSuccess
  render : Diagram → RenderOpts → Async String

/-- The `compileOptions` record built field-by-field by the d2_render
handler: each schema field is copied exactly when present. -/
def buildCompileOptions (p : RenderInput) : CompileOptions :=
  { layout := p.layout
    sketch := p.sketch
    themeID := p.theme_id
    darkThemeID := p.dark_theme_id
    pad := p.pad
    center := p.center
    ascii := p.ascii }

/-! ### Tool responses -/

/-- The `structuredContent` value returned by d2_validate. -/
structure ValidateOutput where
  valid : Bool
  error : Option String := none
deriving DecidableEq

/-- JSON string escaping as performed by `JSON.stringify` on one character. -/
def jsonEscapeChar (c : Char) : String :=
  if c = '"' then "\\\""
  else if c = '\\' then "\\\\"
  else if c = '\n' then "\\n"
  else if c = '\r' then "\\r"
  else if c = '\t' then "\\t"
  else if c.val = 0x8 then "\\b"
  else if c.val = 0xc then "\\f"
  else if c.val < 0x20 then
    "\\u00" ++ String.mk [Nat.digitChar (c.toNat / 16), Nat.digitChar (c.toNat % 16)]
  else String.singleton c

/-- `JSON.stringify` applied to a string value. -/
def jsonEscape (s : String) : String :=
  "\"" ++ String.join (s.data.map jsonEscapeChar) ++ "\""

/-- `JSON.stringify` applied to the d2_validate output object (fields in
insertion order: `valid`, then `error` when present). -/
def validateJson (o : ValidateOutput) : String :=
  "\x7b\"valid\":" ++ (if o.valid then "true" else "false") ++
    (match o.error with
     | none => ""
     | some e => ",\"error\":" ++ jsonEscape e) ++ "\x7d"

/-- Response envelope returned by the tool handlers: the error flag, the
single text content item, and (for d2_validate) the structured content. -/
structure ToolResponse where
  isError : Bool
  text : String
  structured : Option ValidateOutput := none
deriving DecidableEq

/-- One call from a handler into the D2 WASM instance, recording the
phase, the arguments of a compile call, and — when the call is wrapped in
`withTimeout` — the deadline and label passed to the guard (`none` when the
promise is awaited directly, outside any guard). -/
inductive CallEvent where
  | compileCall (source : String) (opts : Option CompileOptions)
      (guard : Option (Nat × String))
  | renderCall (guard : Option (Nat × String))
deriving DecidableEq

/-- The guard parameters of a recorded call (`none` = unguarded). -/
def CallEvent.guard : CallEvent → Option (Nat × String)
  | .compileCall _ _ g => g
  | .renderCall g => g

/-- Whether the recorded call is a compile (as opposed to a render). -/
def CallEvent.isCompile : CallEvent → Bool
  | .compileCall .. => true
  | .renderCall _ => false

/-! ### Handler embeddings -/

/-- Error text produced by the d2_render catch-all handler. -/
def renderErrorText (msg : String) : String :=
  "Error rendering D2 diagram: " ++ msg ++
    "\n\nTip: Use d2_validate to check for syntax errors first."

/-- Mitigation sentence of the size-limit error. -/
def sizeLimitSuffix : String :=
  "Simplify your diagram, use ascii=true, or use skip_fonts=true for a smaller SVG output."

/-- Error text produced by the d2_render size-limit check. -/
def sizeLimitText (n : Nat) : String :=
  "Error: Rendered output is too large (" ++ Nat.repr n ++ " chars, limit " ++
    Nat.repr CHARACTER_LIMIT ++ "). " ++ sizeLimitSuffix

/-- The d2_render handler: compile and render through `withTimeout` (both
rejections are caught by the surrounding try/catch and become error
envelopes), optional font stripping when `skip_fonts` is truthy, then the
size-limit check.  Also returns the trace of D2 calls made. -/
def d2_render_handler (p : RenderInput) (env : D2Env) : ToolResponse × List CallEvent :=
  let opts := buildCompileOptions p
  let e1 := CallEvent.compileCall p.d2_code (some opts)
    (some (RENDER_TIMEOUT_MS, "d2_render compile"))
  match withTimeout (env.compile p.d2_code (some opts)) RENDER_TIMEOUT_MS "d2_render compile" with
  | .err msg => (⟨true, renderErrorText msg, none⟩, [e1])
  | .ok res =>
    let e2 := CallEvent.renderCall (some (RENDER_TIMEOUT_MS, "d2_render render"))
    match withTimeout (env.render res.diagram res.renderOptions) RENDER_TIMEOUT_MS "d2_render render" with
    | .err msg => (⟨true, renderErrorText msg, none⟩, [e1, e2])
    | .ok svg0 =>
      let svg := if p.skip_fonts = some true then stripFontFaces svg0 else svg0
      if svg.length > CHARACTER_LIMIT then
        (⟨true, sizeLimitText svg.length, none⟩, [e1, e2])
      else
        (⟨false, svg, none⟩, [e1, e2])

/-- The d2_validate handler: awaits `d2.compile(d2_code)` directly — with no
options argument and no timeout guard — and converts both settlement kinds
into a non-error structured result. -/
def d2_validate_handler (p : ValidateInput) (env : D2Env) : ToolResponse × List CallEvent :=
  let e := CallEvent.compileCall p.d2_code none none
  match (env.compile p.d2_code none).outcome with
  | .ok _ =>
    let out : ValidateOutput := ⟨true, none⟩
    (⟨false, validateJson out, some out⟩, [e])
  | .err msg =>
    let out : ValidateOutput := ⟨false, some msg⟩
    (⟨false, validateJson out, some out⟩, [e])

/-! ### External formatter bridge -/

/-- A JavaScript `Error` as observed by the bridge: its optional `code`
property (e.g. `"ENOENT"`) and its message. -/
structure JsError where
  code : Option String := none
  message : String
deriving DecidableEq

/-- Captured result of a completed external process (`BinaryResult`). -/
structure BinaryResult where
  stdout : String
  stderr : String
  exitCode : Nat
deriving DecidableEq

/-- How the spawned process behaves: either the `error` event fires with a
launch failure, or the `close` event fires with the accumulated streams and
an exit code (`none` models a `null` code). -/
inductive SpawnBehavior where
  | launchFailure (error : JsError)
  | closes (stdout stderr : String) (code : Option Nat)
deriving DecidableEq

/-- The actionable message produced for an `ENOENT` launch failure. -/
def enoentMessage : String :=
  "d2 binary not found. Install d2 from https://d2lang.com or set D2_PATH env var. " ++
    "Note: d2_render and d2_validate work without the binary."

/-- `runD2Binary` from index.ts: an `ENOENT` launch failure is replaced by a
fresh actionable error, any other launch failure is rejected unchanged, and
a close resolves with the streams and `code ?? 1`. -/
def runD2Binary (args : List String) (stdin : String) (behavior : SpawnBehavior) :
    Except JsError BinaryResult :=
  match behavior with
  | .launchFailure e =>
    if e.code = some "ENOENT" then .error ⟨none, enoentMessage⟩
    else .error e
  | .closes out errStream code => .ok ⟨out, errStream, code.getD 1⟩

/-- JavaScript `String.prototype.trim`: remove leading and trailing
whitespace (the same character class as `\s`). -/
def jsTrim (s : String) : String :=
  String.mk (((s.data.dropWhile isJsSpace).reverse.dropWhile isJsSpace).reverse)

/-- The d2_format handler: runs `d2 fmt -` with the source on stdin.  A
non-zero exit code becomes a formatting error whose message is the trimmed
`stderr || stdout || "Unknown error"`; a launch failure is caught and
reported as `Error: <message>`. -/
def d2_format_handler (p : FormatInput) (behavior : SpawnBehavior) : ToolResponse :=
  match runD2Binary ["fmt", "-"] p.d2_code behavior with
  | .error e => ⟨true, "Error: " ++ e.message, none⟩
  | .ok result =>
    if result.exitCode ≠ 0 then
      let errorMsg :=
        if result.stderr ≠ "" then result.stderr
        else if result.stdout ≠ "" then result.stdout
        else "Unknown error"
      ⟨true, "Error formatting D2 code: " ++ jsTrim errorMsg, none⟩
    else ⟨false, result.stdout, none⟩

/-! ### Substring occurrence (used to state that error messages name
their remediation hints) -/

/-- Whether the pattern is a prefix of the text. -/
def matchesFront : List Char → List Char → Bool
  | [], _ => true
  | _ :: _, [] => false
  | p :: ps, c :: cs => p = c && matchesFront ps cs

/-- Whether the pattern occurs contiguously anywhere in the text. -/
def occursAnywhere (sub : List Char) : List Char → Bool
  | [] => matchesFront sub []
  | c :: cs => matchesFront sub (c :: cs) || occursAnywhere sub cs

/-- Whether `sub` occurs as a substring of `s`. -/
def strOccurs (sub s : String) : Bool :=
  occursAnywhere sub.data s.data

/-! ### Sample environments used by the closed witness and counterexample
statements -/

/-- An environment in which every compile and render call settles promptly
and successfully, rendering a tiny SVG document. -/
def sampleEnv : D2Env where
  compile := fun _ _ => ⟨true, .ok ⟨0, 0⟩⟩
  render := fun _ _ => ⟨true, .ok "<svg/>"⟩

/-- An environment whose render output is plain-text art containing a run
of four newlines (exactly what a multi-row ASCII rendering contains). -/
def asciiArtEnv : D2Env where
  compile := fun _ _ => ⟨true, .ok ⟨0, 0⟩⟩
  render := fun _ _ => ⟨true, .ok "a\n\n\n\nb"⟩

/-- An environment that always fails compilation with a diagnostic. -/
def failingEnv : D2Env where
  compile := fun _ _ => ⟨true, .err "d2: syntax error on line 1"⟩
  render := fun _ _ => ⟨true, .ok "<svg/>"⟩

/-- A 200000-character output string: exactly at the size limit. -/
def limitString : String := String.mk (List.replicate 200000 'a')

/-- A 200001-character output string: just over the size limit. -/
def hugeString : String := String.mk (List.replicate 200001 'a')

/-- An environment whose render output has exactly 200000 characters. -/
def limitEnv : D2Env where
  compile := fun _ _ => ⟨true, .ok ⟨0, 0⟩⟩
  render := fun _ _ => ⟨true, .ok limitString⟩

/-- An environment whose render output has 200001 characters. -/
def hugeEnv : D2Env where
  compile := fun _ _ => ⟨true, .ok ⟨0, 0⟩⟩
  render := fun _ _ => ⟨true, .ok hugeString⟩

/-! ### Arithmetic helpers for the size-limit message -/

theorem ten_mul_add_nine_lt (m : Nat) (h : 2 ≤ m) : 10 * m + 9 < 10 ^ m := by
  induction m with
  | zero => omega
  | succ k ih =>
    rcases Nat.lt_or_ge k 2 with hk | hk
    · have hk1 : k = 1 := by omega
      subst hk1
      decide
    · have h1 := ih hk
      have h2 : (10 : Nat) ≤ 10 ^ k := by
        calc (10 : Nat) = 10 ^ 1 := by decide
        _ ≤ 10 ^ k := Nat.pow_le_pow_right (by decide) (by omega)
      have h3 : 10 ^ (k + 1) = 10 ^ k * 10 := by rw [Nat.pow_succ]
      omega

/-- The decimal representation of `n` has at most `n / 10` digits once
`n ≥ 20`. -/
theorem repr_length_le_div_ten (n : Nat) (h : 20 ≤ n) :
    (Nat.repr n).length ≤ n / 10 := by
  apply Nat.repr_length n (n / 10) (by omega)
  have h1 : 2 ≤ n / 10 := by omega
  have h2 := ten_mul_add_nine_lt (n / 10) h1
  omega

theorem sizeLimitText_length (n : Nat) :
    (sizeLimitText n).length = 147 + (Nat.repr n).length := by
  simp only [sizeLimitText, String.length_append]
  have h1 : ("Error: Rendered output is too large (" : String).length = 37 := by decide
  have h2 : (" chars, limit " : String).length = 14 := by decide
  have h3 : (Nat.repr CHARACTER_LIMIT).length = 6 := by decide
  have h4 : ("). " : String).length = 3 := by decide
  have h5 : sizeLimitSuffix.length = 87 := by decide
  omega

/-- The size-limit message is strictly shorter than any over-limit output,
so it can never coincide with the output itself. -/
theorem sizeLimitText_length_lt (n : Nat) (h : CHARACTER_LIMIT < n) :
    (sizeLimitText n).length < n := by
  have h1 := sizeLimitText_length n
  have h2 := repr_length_le_div_ten n (by simp [CHARACTER_LIMIT] at h; omega)
  simp [CHARACTER_LIMIT] at h
  omega

/-- Characterization of the d2_render handler on the success path: when the
compile and render promises both settle quickly and successfully, the
response is determined by the post-processed output and the size check. -/
theorem d2_render_handler_success (p : RenderInput) (env : D2Env)
    (cs : CompileSuccess) (svg : String)
    (hc : env.compile p.d2_code (some (buildCompileOptions p)) = ⟨true, Outcome.ok cs⟩)
    (hr : env.render cs.diagram cs.renderOptions = ⟨true, Outcome.ok svg⟩) :
    (d2_render_handler p env).1 =
      (if (if p.skip_fonts = some true then stripFontFaces svg else svg).length > CHARACTER_LIMIT
       then ⟨true, sizeLimitText (if p.skip_fonts = some true then stripFontFaces svg else svg).length, none⟩
       else ⟨false, (if p.skip_fonts = some true then stripFontFaces svg else svg), none⟩) := by
  simp only [d2_render_handler, hc, hr, withTimeout, withTimeoutRun, if_true]
  split <;> split <;> rfl

/-- The d2_render handler performs either one call (compile failed or timed
out) or two calls (compile succeeded, then render), always with these exact
events. -/
theorem d2_render_trace (p : RenderInput) (env : D2Env) :
    (d2_render_handler p env).2 =
      [CallEvent.compileCall p.d2_code (some (buildCompileOptions p))
        (some (RENDER_TIMEOUT_MS, "d2_render compile"))] ∨
    (d2_render_handler p env).2 =
      [CallEvent.compileCall p.d2_code (some (buildCompileOptions p))
        (some (RENDER_TIMEOUT_MS, "d2_render compile")),
       CallEvent.renderCall (some (RENDER_TIMEOUT_MS, "d2_render render"))] := by
  unfold d2_render_handler
  cases h1 : withTimeout (env.compile p.d2_code (some (buildCompileOptions p)))
      RENDER_TIMEOUT_MS "d2_render compile" with
  | err m => simp [h1]
  | ok res =>
    cases h2 : withTimeout (env.render res.diagram res.renderOptions)
        RENDER_TIMEOUT_MS "d2_render render" with
    | err m => simp [h1, h2]
    | ok svg0 =>
      simp only [h1, h2]
      right
      split <;> split <;> rfl

/-- C1 counterexample: the claim includes the compile performed by the
validate operation, but d2_validate awaits `d2.compile` directly — its one
call into the compiler facade carries no timeout guard at all. -/
theorem C1_counterexample_validate_compile_unguarded :
    ((d2_validate_handler ⟨"a -> b"⟩ sampleEnv).2.map CallEvent.guard) = [none] := rfl

/-- C1 (amended): every compiler-facade call made by the d2_render handler —
the compile call and the render call — goes through the Timeout Guard with
the 30000 ms deadline and a label identifying the phase; the compile
performed by d2_validate, however, is invoked without the guard. -/
theorem C1_render_calls_guarded (p : RenderInput) (env : D2Env) (e : CallEvent)
    (he : e ∈ (d2_render_handler p env).2) :
    e.guard = some (RENDER_TIMEOUT_MS,
      if e.isCompile then "d2_render compile" else "d2_render render") := by
  rcases d2_render_trace p env with h | h <;> rw [h] at he
  · rw [List.mem_singleton] at he
    subst he
    rfl
  · simp only [List.mem_cons, List.mem_singleton, List.not_mem_nil, or_false] at he
    rcases he with rfl | rfl <;> rfl

/-- Closed instance of C1: on a concrete render call the compile event is in
the trace and carries the 30-second guard with the compile-phase label. -/
theorem C1_witness :
    (CallEvent.compileCall "a -> b" (some (buildCompileOptions ({ d2_code := "a -> b" } : RenderInput)))
        (some (RENDER_TIMEOUT_MS, "d2_render compile")) ∈
      (d2_render_handler ({ d2_code := "a -> b" } : RenderInput) sampleEnv).2) ∧
    (CallEvent.compileCall "a -> b" (some (buildCompileOptions ({ d2_code := "a -> b" } : RenderInput)))
        (some (RENDER_TIMEOUT_MS, "d2_render compile"))).guard =
      some (RENDER_TIMEOUT_MS, "d2_render compile") :=
  ⟨by decide, C1_render_calls_guarded ({ d2_code := "a -> b" } : RenderInput) sampleEnv _ (by decide)⟩

/-- C2 counterexample: `stripFontFaces` is not idempotent.  Deleting the
inner font-face block of this input splices its surroundings into a fresh
`@font-face` block, which the first application leaves in place and a second
application removes. -/
theorem C2_counterexample_not_idempotent :
    stripFontFaces (stripFontFaces "@font-@font-face\x7ba\x7dface\x7bb\x7d") ≠
      stripFontFaces "@font-@font-face\x7ba\x7dface\x7bb\x7d" := by
  decide

/-- C2 (amended): `stripFontFaces` is idempotent on every input whose
first-pass result contains no residual match of the font-face pattern — in
particular the newline-collapse is always a fixed point — but not on all
strings, since removing a block can create a new match. -/
theorem C2_idempotent_without_residual_match (x : String)
    (h : hasFontFace (stripFontFaces x).data = false) :
    stripFontFaces (stripFontFaces x) = stripFontFaces x :=
  stripFontFaces_idem_aux x h

/-- Closed instance of C2 (amended) on an SVG-like input with a font-face
block and a long newline run. -/
theorem C2_witness :
    hasFontFace (stripFontFaces "a@font-face \x7b src: url(x) \x7d\n\n\n\nb").data = false ∧
    stripFontFaces (stripFontFaces "a@font-face \x7b src: url(x) \x7d\n\n\n\nb") =
      stripFontFaces "a@font-face \x7b src: url(x) \x7d\n\n\n\nb" :=
  ⟨by decide, C2_idempotent_without_residual_match _ (by decide)⟩

/-- C6 counterexample: when the wrapped operation settles first, the timer
is not cancelled — `withTimeout` contains no `clearTimeout` — and the
deadline timer still fires later (its rejection is discarded). -/
theorem C6_counterexample_timer_not_cancelled :
    ((withTimeoutRun (⟨true, Outcome.ok 7⟩ : Async Nat) RENDER_TIMEOUT_MS
        "d2_render compile").2.cancelled = false) ∧
    ((withTimeoutRun (⟨true, Outcome.ok 7⟩ : Async Nat) RENDER_TIMEOUT_MS
        "d2_render compile").2.fires = true) :=
  ⟨rfl, rfl⟩

/-- C6 (amended): if the wrapped operation settles before the deadline, its
own result or failure is returned unchanged; the deadline timer is not
cancelled and still fires, but its late rejection does not affect the
returned value. -/
theorem C6_settles_first_result_returned {α : Type} (a : Async α) (ms : Nat)
    (label : String) (h : a.fast = true) :
    (withTimeoutRun a ms label).1 = a.outcome ∧
    (withTimeoutRun a ms label).2.cancelled = false ∧
    (withTimeoutRun a ms label).2.fires = true := by
  refine ⟨?_, rfl, rfl⟩
  simp [withTimeoutRun, h]

/-- Closed instance of C6 (amended): a promptly-settling operation's result
is handed back by the guard. -/
theorem C6_witness :
    ((⟨true, Outcome.ok 7⟩ : Async Nat).fast = true) ∧
    (withTimeoutRun (⟨true, Outcome.ok 7⟩ : Async Nat) 30000 "d2_render render").1 =
      Outcome.ok 7 :=
  ⟨rfl, (C6_settles_first_result_returned (⟨true, Outcome.ok 7⟩ : Async Nat) 30000
    "d2_render render" rfl).1⟩

/-- C3: for every non-empty source string the validate handler yields a
well-formed structured result and never an exceptional condition: a
successful compile gives `valid = true` with the error field omitted, and a
failed compile with a non-empty diagnostic gives `valid = false` with that
non-empty diagnostic as the error — in both branches the response is a
normal (non-error) envelope. -/
theorem C3_validate_never_throws (src : String) (hsrc : src ≠ "") (env : D2Env) :
    ((d2_validate_handler ⟨src⟩ env).1.isError = false) ∧
    (∀ d, (env.compile src none).outcome = Outcome.ok d →
        (d2_validate_handler ⟨src⟩ env).1.structured = some ⟨true, none⟩) ∧
    (∀ msg, (env.compile src none).outcome = Outcome.err msg → msg ≠ "" →
        (d2_validate_handler ⟨src⟩ env).1.structured = some ⟨false, some msg⟩ ∧
        0 < msg.length) := by
  refine ⟨?_, ?_, ?_⟩
  · cases h : (env.compile src none).outcome <;> simp [d2_validate_handler, h]
  · intro d h
    simp [d2_validate_handler, h]
  · intro msg h hne
    refine ⟨by simp [d2_validate_handler, h], ?_⟩
    cases msg with
    | mk data =>
      cases data with
      | nil => exact absurd rfl hne
      | cons c cs => exact Nat.succ_pos _

/-- Closed instance of C3 on a failing compile with a non-empty diagnostic. -/
theorem C3_witness :
    ("x ->" ≠ "") ∧
    (failingEnv.compile "x ->" none).outcome = Outcome.err "d2: syntax error on line 1" ∧
    (d2_validate_handler ⟨"x ->"⟩ failingEnv).1.structured =
      some ⟨false, some "d2: syntax error on line 1"⟩ :=
  ⟨by decide, rfl,
    ((C3_validate_never_throws "x ->" (by decide) failingEnv).2.2
      "d2: syntax error on line 1" rfl (by decide)).1⟩

/-- C10: the validate handler invokes the compiler with the bare source and
no options record, so its entire response is a function of the compile
behaviour for `(src, none)` alone, and its verdict is `valid = true` exactly
when that default-options compile succeeds. -/
theorem C10_validate_default_options (src : String) (env env2 : D2Env)
    (h : env.compile src none = env2.compile src none) :
    d2_validate_handler ⟨src⟩ env = d2_validate_handler ⟨src⟩ env2 ∧
    (d2_validate_handler ⟨src⟩ env).2 = [CallEvent.compileCall src none none] ∧
    ((d2_validate_handler ⟨src⟩ env).1.structured = some ⟨true, none⟩ ↔
      (env.compile src none).outcome.isOk = true) := by
  refine ⟨?_, ?_, ?_⟩
  · unfold d2_validate_handler
    rw [h]
  · cases h2 : (env.compile src none).outcome <;> simp [d2_validate_handler, h2]
  · cases h2 : (env.compile src none).outcome <;>
      simp [d2_validate_handler, h2, Outcome.isOk]

/-- Closed instance of C10: validate's only compiler call passes no options. -/
theorem C10_witness :
    (sampleEnv.compile "a -> b" none = sampleEnv.compile "a -> b" none) ∧
    (d2_validate_handler ⟨"a -> b"⟩ sampleEnv).2 =
      [CallEvent.compileCall "a -> b" none none] :=
  ⟨rfl, (C10_validate_default_options "a -> b" sampleEnv sampleEnv rfl).2.1⟩

/-- C5 counterexample: with ascii mode enabled and skip_fonts requested, the
returned output IS transformed by `stripFontFaces` — the handler applies the
filter whenever `skip_fonts` is truthy, regardless of ascii mode, and the
newline-collapse changes this plain-text-art output. -/
theorem C5_counterexample_ascii_output_transformed :
    (asciiArtEnv.render 0 0).outcome = Outcome.ok "a\n\n\n\nb" ∧
    (d2_render_handler
        ({ d2_code := "a -> b", ascii := some true, skip_fonts := some true } : RenderInput)
        asciiArtEnv).1.text = "a\n\nb" ∧
    "a\n\nb" ≠ "a\n\n\n\nb" :=
  ⟨rfl, by decide, by decide⟩

/-- C5 (amended): on the success path the returned output is passed through
`stripFontFaces` exactly when `skip_fonts` is explicitly true, and is
returned untouched otherwise — this holds regardless of the ascii flag, so
ascii output is also transformed whenever `skip_fonts` is set. -/
theorem C5_strip_applied_iff_requested (p : RenderInput) (env : D2Env)
    (cs : CompileSuccess) (svg : String)
    (hc : env.compile p.d2_code (some (buildCompileOptions p)) = ⟨true, Outcome.ok cs⟩)
    (hr : env.render cs.diagram cs.renderOptions = ⟨true, Outcome.ok svg⟩)
    (hlen : (if p.skip_fonts = some true then stripFontFaces svg else svg).length ≤
      CHARACTER_LIMIT) :
    (d2_render_handler p env).1 =
      ⟨false, if p.skip_fonts = some true then stripFontFaces svg else svg, none⟩ := by
  rw [d2_render_handler_success p env cs svg hc hr, if_neg (by omega)]

/-- Closed instance of C5 (amended) on an ascii render with skip_fonts set. -/
theorem C5_witness :
    (asciiArtEnv.compile "a -> b"
        (some (buildCompileOptions
          ({ d2_code := "a -> b", ascii := some true, skip_fonts := some true } : RenderInput))) =
      ⟨true, Outcome.ok ⟨0, 0⟩⟩) ∧
    ((if ({ d2_code := "a -> b", ascii := some true, skip_fonts := some true } :
        RenderInput).skip_fonts = some true
      then stripFontFaces "a\n\n\n\nb" else "a\n\n\n\nb").length ≤ CHARACTER_LIMIT) ∧
    (d2_render_handler
        ({ d2_code := "a -> b", ascii := some true, skip_fonts := some true } : RenderInput)
        asciiArtEnv).1 =
      ⟨false,
        if ({ d2_code := "a -> b", ascii := some true, skip_fonts := some true } :
            RenderInput).skip_fonts = some true
        then stripFontFaces "a\n\n\n\nb" else "a\n\n\n\nb", none⟩ :=
  ⟨rfl, by decide,
    C5_strip_applied_iff_requested
      ({ d2_code := "a -> b", ascii := some true, skip_fonts := some true } : RenderInput)
      asciiArtEnv ⟨0, 0⟩ "a\n\n\n\nb" rfl rfl (by decide)⟩

/-- C7: an `ENOENT` launch failure of the external formatter is mapped to a
fresh actionable error naming the installation source (`https://d2lang.com`)
and the path-override setting (`D2_PATH`), while every other launch failure
is propagated unchanged. -/
theorem C7_launch_failure_mapping (args : List String) (stdin : String) (e : JsError) :
    (e.code = some "ENOENT" →
        runD2Binary args stdin (.launchFailure e) = .error ⟨none, enoentMessage⟩) ∧
    (e.code ≠ some "ENOENT" →
        runD2Binary args stdin (.launchFailure e) = .error e) ∧
    strOccurs "https://d2lang.com" enoentMessage = true ∧
    strOccurs "D2_PATH" enoentMessage = true := by
  refine ⟨?_, ?_, by decide, by decide⟩
  · intro h
    simp [runD2Binary, h]
  · intro h
    simp [runD2Binary, h]

/-- Closed instance of C7: a concrete ENOENT launch failure becomes the
actionable not-found error. -/
theorem C7_witness :
    ((⟨some "ENOENT", "spawn d2 ENOENT"⟩ : JsError).code = some "ENOENT") ∧
    runD2Binary ["fmt", "-"] "a -> b"
        (.launchFailure ⟨some "ENOENT", "spawn d2 ENOENT"⟩) =
      .error ⟨none, enoentMessage⟩ :=
  ⟨rfl, (C7_launch_failure_mapping ["fmt", "-"] "a -> b"
    ⟨some "ENOENT", "spawn d2 ENOENT"⟩).1 rfl⟩

/-- C8: when the external process exits with a non-zero status the format
handler returns a structured formatting error (not an exception) whose
message is the trimmed error-stream text, falling back to the output-stream
text, and finally to the literal "Unknown error". -/
theorem C8_nonzero_exit_formatting_error (p : FormatInput) (out errStream : String)
    (code : Option Nat) (h : code.getD 1 ≠ 0) :
    d2_format_handler p (.closes out errStream code) =
      ⟨true, "Error formatting D2 code: " ++
        jsTrim (if errStream ≠ "" then errStream
                else if out ≠ "" then out else "Unknown error"), none⟩ := by
  simp only [d2_format_handler, runD2Binary]
  rw [if_pos h]

/-- Closed instance of C8: non-zero exit with whitespace-padded stderr
yields the trimmed stderr as the formatting-error message. -/
theorem C8_witness :
    ((some 1 : Option Nat).getD 1 ≠ 0) ∧
    d2_format_handler ⟨"a->b"⟩ (.closes "" "  err: bad syntax \n" (some 1)) =
      ⟨true, "Error formatting D2 code: err: bad syntax", none⟩ :=
  ⟨by decide, by
    rw [C8_nonzero_exit_formatting_error ⟨"a->b"⟩ "" "  err: bad syntax \n" (some 1)
      (by decide)]
    decide⟩

/-- C9: the size-limit check is a strict inequality — an output of exactly
200000 characters is returned normally, and only strictly longer outputs
produce the size-limit error. -/
theorem C9_size_limit_strict (p : RenderInput) (env : D2Env)
    (cs : CompileSuccess) (svg out : String)
    (hc : env.compile p.d2_code (some (buildCompileOptions p)) = ⟨true, Outcome.ok cs⟩)
    (hr : env.render cs.diagram cs.renderOptions = ⟨true, Outcome.ok svg⟩)
    (hout : out = if p.skip_fonts = some true then stripFontFaces svg else svg) :
    (out.length = CHARACTER_LIMIT → (d2_render_handler p env).1 = ⟨false, out, none⟩) ∧
    (CHARACTER_LIMIT < out.length →
        (d2_render_handler p env).1 = ⟨true, sizeLimitText out.length, none⟩) := by
  subst hout
  rw [d2_render_handler_success p env cs svg hc hr]
  constructor
  · intro h
    rw [if_neg (by omega)]
  · intro h
    rw [if_pos (by omega)]

/-- Closed instance of C9: an output of exactly 200000 characters is
returned to the caller unchanged. -/
theorem C9_witness :
    limitString.length = CHARACTER_LIMIT ∧
    (d2_render_handler ({ d2_code := "a -> b" } : RenderInput) limitEnv).1 =
      ⟨false, limitString, none⟩ := by
  have hlen : limitString.length = CHARACTER_LIMIT := by
    show (List.replicate 200000 'a').length = CHARACTER_LIMIT
    rw [List.length_replicate]
    rfl
  exact ⟨hlen, (C9_size_limit_strict ({ d2_code := "a -> b" } : RenderInput) limitEnv
    ⟨0, 0⟩ limitString limitString rfl rfl rfl).1 hlen⟩

/-- C4: whenever the post-processed output exceeds 200000 characters the
render handler returns the size-limit error — which embeds the actual
length and suggests ascii mode and font stripping as mitigations — and the
oversized payload itself is never the returned text (the error message is
strictly shorter than any over-limit output). -/
theorem C4_oversize_never_returned (p : RenderInput) (env : D2Env)
    (cs : CompileSuccess) (svg out : String)
    (hc : env.compile p.d2_code (some (buildCompileOptions p)) = ⟨true, Outcome.ok cs⟩)
    (hr : env.render cs.diagram cs.renderOptions = ⟨true, Outcome.ok svg⟩)
    (hout : out = if p.skip_fonts = some true then stripFontFaces svg else svg)
    (hbig : CHARACTER_LIMIT < out.length) :
    (d2_render_handler p env).1.isError = true ∧
    (d2_render_handler p env).1.text = sizeLimitText out.length ∧
    (d2_render_handler p env).1.text ≠ out ∧
    strOccurs "ascii=true" sizeLimitSuffix = true ∧
    strOccurs "skip_fonts=true" sizeLimitSuffix = true := by
  subst hout
  rw [d2_render_handler_success p env cs svg hc hr, if_pos (by omega)]
  refine ⟨rfl, rfl, ?_, by decide, by decide⟩
  dsimp only
  intro heq
  have hl := congrArg String.length heq
  have hlt := sizeLimitText_length_lt _ hbig
  omega

/-- Closed instance of C4: a 200001-character output triggers the error
path. -/
theorem C4_witness :
    CHARACTER_LIMIT < hugeString.length ∧
    (d2_render_handler ({ d2_code := "a -> b" } : RenderInput) hugeEnv).1.isError = true := by
  have hlen : hugeString.length = 200001 := by
    show (List.replicate 200001 'a').length = 200001
    rw [List.length_replicate]
  have hbig : CHARACTER_LIMIT < hugeString.length := by
    rw [hlen]
    decide
  exact ⟨hbig, (C4_oversize_never_returned ({ d2_code := "a -> b" } : RenderInput) hugeEnv
    ⟨0, 0⟩ hugeString hugeString rfl rfl rfl hbig).1⟩
